import Mathlib

/-!
Shallow embedding of `src/service/libre-user/src/oauth/casdoor.rs`: the OAuth2
authorization-code flow with PKCE (initiation handler `auth`, callback handler
`callback`, profile retrieval `get_user_info_from_github`, and the
`From<CasdoorUser> for models::User` conversion), together with a model of the
Redis correlation store and the account table the handlers touch.

Nondeterministic inputs of the Rust code (freshly generated CSRF state, PKCE
verifier/challenge, UUIDs, the current time) are passed as explicit parameters;
network calls and the database are passed as explicit oracles / state so the
handlers become pure functions from inputs to (response, state-after).
-/

namespace ModernLibre

/-! ### Redis correlation store

The Rust code talks to Redis through `redis::AsyncCommands`: `set` (plain SET,
no expiry argument) in `auth`, and `get` (typed at `String`) in `callback`.
We model the store as an association list from key to (value, optional absolute
expiry time); plain SET stores no expiry, matching the Redis command the code
issues. A GET of an absent or expired key yields Redis nil, which the typed
`String` conversion turns into a type error; a store that is unavailable yields
an IO error. -/

inductive RedisError where
  | ioError
  | typeError
deriving DecidableEq, Repr

/-- The correlation store contents: key, value, optional absolute expiry. -/
def RedisState := List (String × String × Option Nat)

instance : DecidableEq RedisState := by
  unfold RedisState
  infer_instance

/-- Find the stored (value, expiry) for a key. -/
def redisFind : List (String × String × Option Nat) → String → Option (String × Option Nat)
  | [], _ => none
  | e :: rest, key => if e.1 = key then some e.2 else redisFind rest key

/-- The value a GET observes at time `now`: an entry with no expiry never
expires; an entry with expiry `exp` is gone once `exp ≤ now`. -/
def redisLookup (st : RedisState) (now : Nat) (key : String) : Option String :=
  match redisFind st key with
  | some (v, none) => some v
  | some (v, some exp) => if now < exp then some v else none
  | none => none

/-- GET typed at `String` (as in `callback`): nil (absent/expired key) fails the
`String` conversion with a type error; an unavailable store fails with IO. -/
def redisGet (avail : Bool) (st : RedisState) (now : Nat) (key : String) :
    Except RedisError String :=
  if avail then
    match redisLookup st now key with
    | some v => .ok v
    | none => .error .typeError
  else .error .ioError

/-- Plain SET with no expiry argument (as in `auth`): on an available store the
entry is written with no expiry; on an unavailable store nothing is written and
an IO error is returned. -/
def redisSet (avail : Bool) (st : RedisState) (key value : String) :
    Except RedisError Unit × RedisState :=
  if avail then (.ok (), (key, value, none) :: st.filter (fun e => e.1 ≠ key))
  else (.error .ioError, st)

def redisErrorMsg : RedisError → String
  | .ioError => "broken pipe"
  | .typeError => "response was of incompatible type"

/-! ### The `auth` handler (authorization initiation)

```rust
let (pkce_challenge, pkce_verifier) = PkceCodeChallenge::new_random_sha256();
let (authorize_url, csrf_state) = github.authorize_url(CsrfToken::new_random)
    .add_scope(..).set_pkce_challenge(pkce_challenge).url();
let csrf_state = csrf_state.secret();
let pkce_verifier = pkce_verifier.secret();
let mut redis = (**redis).clone();
let _ = redis.set::<_, _, ()>(csrf_state, pkce_verifier).await;
HttpResponse::Found()
    .append_header(("Location", authorize_url.as_str()))
    .append_header(("X-CSRF-Token", csrf_state.as_str()))
    .finish()
```

The random state/verifier/challenge and the oauth2 crate's URL construction are
parameters. Note the `let _ =`: the result of the store write is discarded. -/

structure AuthResponse where
  status : Nat
  location : String
  csrfToken : String
deriving DecidableEq, Repr

def auth (authorizeUrl : String → String → String)
    (csrf_state pkce_verifier pkce_challenge : String)
    (redisAvail : Bool) (st : RedisState) : AuthResponse × RedisState :=
  let url := authorizeUrl csrf_state pkce_challenge
  let setResult := redisSet redisAvail st csrf_state pkce_verifier
  (⟨302, url, csrf_state⟩, setResult.2)

/-! ### Remote profiles and the account conversion

```rust
pub struct CasdoorUser { address, aud, email, email_verified, groups, iss,
                         name, phone, picture, preferred_username, sub }

impl From<CasdoorUser> for models::User {
    fn from(user: CasdoorUser) -> Self {
        Self {
            uid: uuid::Uuid::new_v4(),
            name: user.preferred_username.unwrap_or_else(|| user.name.clone()),
            login: user.name,
            avatar: user.picture.to_string(),
            email: user.email.unwrap_or_default(),
            created_at: chrono::Utc::now().naive_utc(),
            admin: false,
            github_id: None,
            casdoor_id: Some(user.sub),
        }
    }
}
```

The source declares `email` and `preferred_username` as `String` in the struct
but the conversion calls `unwrap_or_else`/`unwrap_or_default` on them, i.e.
treats both as optional; the embedding follows the conversion and makes the two
fields `Option String`. The fresh UUID and the current time are parameters. -/

structure CasdoorUser where
  address : String
  aud : String
  email : Option String
  email_verified : Bool
  groups : List String
  iss : String
  name : String
  phone : String
  picture : String
  preferred_username : Option String
  sub : String
deriving DecidableEq, Repr

/-- The local account record (`models::User`), with exactly the fields the
conversion assigns; the UUID is modelled as a string and the creation timestamp
as a natural number. -/
structure User where
  uid : String
  name : String
  login : String
  avatar : String
  email : String
  created_at : Nat
  admin : Bool
  github_id : Option Int
  casdoor_id : Option String
deriving DecidableEq, Repr

/-- The `From<CasdoorUser> for models::User` conversion. -/
def userFromCasdoor (freshUid : String) (now : Nat) (user : CasdoorUser) : User :=
  { uid := freshUid
  , name := user.preferred_username.getD user.name
  , login := user.name
  , avatar := user.picture
  , email := user.email.getD ""
  , created_at := now
  , admin := false
  , github_id := none
  , casdoor_id := some user.sub }

/-- The sign-up account construction as the spec words it (§4.6): fresh internal
id, display name preferring the preferred username and falling back to the
provider's display name, avatar from the picture, email from the profile and
empty when absent, creation timestamp now, administrator flag false, provider
linkage = sub. Stated independently of the code, for comparison. -/
def specSignUpAccount (freshUid : String) (now : Nat) (p : CasdoorUser) : User :=
  { uid := freshUid
  , name := match p.preferred_username with
            | some u => u
            | none => p.name
  , login := p.name
  , avatar := p.picture
  , email := match p.email with
             | some e => e
             | none => ""
  , created_at := now
  , admin := false
  , github_id := none
  , casdoor_id := some p.sub }

/-! ### Token responses and `get_user_info_from_github`

The oauth2 crate's `StandardTokenResponse` carries an access token, a token
type (`BasicTokenType`: Bearer, Mac, or an extension) and optional scopes.
`get_user_info_from_github` splits the scopes on commas (for logging only),
then issues the user-info HTTP request only for a Bearer token; any other token
type is "Unsupported token type". The HTTP transport and the JSON parsing of
the profile are oracles; the outcome records the Authorization headers of the
HTTP requests actually issued, and the scope list that was logged. -/

inductive BasicTokenType where
  | bearer
  | mac
  | extensionType (t : String)
deriving DecidableEq, Repr

structure TokenResponse where
  access_token : String
  token_type : BasicTokenType
  scopes : Option (List String)
deriving DecidableEq, Repr

/-- Modelled from the spec: the remote profile returned by the provider's
user-info endpoint. The `GitHubUser` declaration lives outside src/; the only
uses visible in src/ are `github_user.id` (the stable provider subject used for
lookup) and the conversion into a local account. -/
structure GitHubUser where
  id : Int
deriving DecidableEq, Repr

structure HttpResponse where
  status : Nat
  body : String
deriving DecidableEq, Repr

/-- The error type `super::Error` as used by this file: the variants
`Error::Authentication` and `Error::Other(&'static str)` are the ones src/
constructs. -/
inductive OAuthError where
  | authenticationFailed
  | other (msg : String)
deriving DecidableEq, Repr

instance {ε α : Type} [DecidableEq ε] [DecidableEq α] : DecidableEq (Except ε α) := fun x y =>
  match x, y with
  | .ok a, .ok b =>
    if h : a = b then .isTrue (by rw [h]) else .isFalse (by simp [h])
  | .error a, .error b =>
    if h : a = b then .isTrue (by rw [h]) else .isFalse (by simp [h])
  | .ok _, .error _ => .isFalse (by simp)
  | .error _, .ok _ => .isFalse (by simp)

structure UserInfoOutcome where
  result : Except OAuthError GitHubUser
  requests : List String
  loggedScopes : List String
deriving DecidableEq, Repr

/-- `get_user_info_from_github`. `http` maps an Authorization header to either a
transport failure or a response; `parseUser` is the JSON decoding of the body. -/
def get_user_info_from_github (http : String → Except String HttpResponse)
    (parseUser : String → Option GitHubUser) (token : TokenResponse) :
    UserInfoOutcome :=
  let scopes : List String :=
    match token.scopes with
    | some scopes_vec => scopes_vec.flatMap (fun comma_separated => comma_separated.splitOn ",")
    | none => []
  match token.token_type with
  | .bearer =>
    let authHeader := "Bearer " ++ token.access_token
    match http authHeader with
    | .error _ =>
      { result := .error (.other "Failed to get user info from Github")
      , requests := [authHeader], loggedScopes := scopes }
    | .ok response =>
      if response.status = 200 then
        match parseUser response.body with
        | some user_info =>
          { result := .ok user_info
          , requests := [authHeader], loggedScopes := scopes }
        | none =>
          { result := .error (.other "Failed to parse user info from Github")
          , requests := [authHeader], loggedScopes := scopes }
      else if response.status = 401 then
        { result := .error .authenticationFailed
        , requests := [authHeader], loggedScopes := scopes }
      else
        { result := .error (.other "Failed to get user info from Github")
        , requests := [authHeader], loggedScopes := scopes }
  | _ =>
    { result := .error (.other "Unsupported token type")
    , requests := [], loggedScopes := scopes }

/-! ### Error taxonomy (spec §7) -/

inductive ErrClass where
  | clientError
  | authenticationError
  | infrastructureError
  | protocolError
deriving DecidableEq, Repr

/-- Modelled from the spec: the classification of `super::Error` values under
the §7 taxonomy (the `ResponseError` impl of `super::Error` is outside src/).
An unsupported token type is client-caused (§8), a provider 401 is an
authentication error, an unparseable profile body is a protocol error, and a
transport failure while fetching the profile is an infrastructure error. -/
def classifyOAuthError : OAuthError → ErrClass
  | .authenticationFailed => .authenticationError
  | .other msg =>
    if msg = "Unsupported token type" then .clientError
    else if msg = "Failed to parse user info from Github" then .protocolError
    else .infrastructureError

/-! ### The `callback` handler

```rust
let mut redis_conn = redis_pool.get().await?;
let pkce_verifier = PkceCodeVerifier::new(
    redis_conn.get(query.state.secret()).await
        .map_err(actix_web::error::ErrorBadRequest)?);
let token = github.exchange_code(query.code).set_pkce_verifier(pkce_verifier)
    .request_async(..).await
    .map_err(|err| match err {
        oauth2::RequestTokenError::ServerResponse(response) =>
            actix_web::error::ErrorBadRequest(response.to_string()),
        _ => actix_web::error::ErrorInternalServerError(err),
    })?;
let github_user = get_user_info_from_github(&token).await?;
let mut conn = postgres_pool.get().await?;
let find_result = models::User::find_by_github_id(github_user.id, &mut conn).await;
let libre_user = match find_result {
    Ok(user) => user,
    Err(models::Error::NotFound) =>
        models::User::from(github_user).create(&mut conn).await?,
    Err(err) => return Err(err.into()),
};
let jwt = jsonwebtoken::Claims::from(&libre_user)
    .expiration(chrono::Duration::hours(1)).generate_jwt(&jwt)
    .map_err(actix_web::error::ErrorInternalServerError)?;
Ok(HttpResponse::SeeOther().append_header(("Location", "/")).json(body))
```

Actix errors are modelled as an HTTP status plus message; `ErrorBadRequest` is
400 and `ErrorInternalServerError` 500. Failure to acquire the pooled Redis
connection is folded into the GET's IO failure (`redisAvail`); the token
exchange, the postgres lookup, the create, and the JWT signing are oracles. -/

structure ActixError where
  status : Nat
  msg : String
deriving DecidableEq, Repr

def errorBadRequest (m : String) : ActixError := ⟨400, m⟩

def errorInternalServerError (m : String) : ActixError := ⟨500, m⟩

/-- The token-exchange failure shape of the oauth2 crate as matched by src/:
`ServerResponse` (provider returned an explicit error body) versus everything
else (transport / parse failures). -/
inductive ExchangeError where
  | serverResponse (msg : String)
  | otherFailure (msg : String)
deriving DecidableEq, Repr

/-- The `models::Error` type: the `NotFound` variant is matched explicitly in
src/; any other failure of the storage layer (modelled from the spec, the
`models` crate being outside src/) is carried as `storage`. -/
inductive ModelsError where
  | notFound
  | storage (msg : String)
deriving DecidableEq, Repr

/-- Modelled from the spec: the `Into<actix_web::Error>` conversion applied to
`models::Error` by `err.into()` and by the `?` on `create` (outside src/). A
storage failure is an infrastructure condition (5xx, §7); `NotFound` itself is
never converted on the reconciliation path (it is matched away first). -/
def modelsErrorToActix : ModelsError → ActixError
  | .notFound => ⟨404, "not found"⟩
  | .storage m => ⟨500, m⟩

def classifyModelsError : ModelsError → ErrClass
  | .notFound => .clientError
  | .storage _ => .infrastructureError

/-- Modelled from the spec: the `ResponseError` status of `super::Error` values
propagated by the `?` after `get_user_info_from_github` (impl outside src/),
following the §7 taxonomy. -/
def oauthErrorToActix (e : OAuthError) : ActixError :=
  match classifyOAuthError e with
  | .clientError => ⟨400, "client error"⟩
  | .authenticationError => ⟨401, "authentication failed"⟩
  | .infrastructureError => ⟨500, "infrastructure error"⟩
  | .protocolError => ⟨500, "protocol error"⟩

structure CallbackQuery where
  state : String
  code : String
deriving DecidableEq, Repr

structure LoginResponse where
  user : User
  token : String
deriving DecidableEq, Repr

structure CallbackSuccess where
  status : Nat
  location : String
  body : LoginResponse
deriving DecidableEq, Repr

/-- The sign-in-or-sign-up match of `callback` (lines 195-202), parameterised by
the lookup outcome, the converted new account, and the persisting `create`
operation; the account table is threaded explicitly. Returns the resolved
account and the table afterwards. -/
def reconcile (find_result : Except ModelsError User) (newUser : User)
    (create : User → Except ModelsError User) (accounts : List User) :
    Except ModelsError (User × List User) :=
  match find_result with
  | .ok user => .ok (user, accounts)
  | .error .notFound =>
    match create newUser with
    | .ok u => .ok (u, accounts ++ [u])
    | .error e => .error e
  | .error e => .error e

/-- Everything `callback` consumes besides the query: the correlation store and
its availability, the provider oracles, the account table and its storage
oracles, the account conversion (the `From` impl instantiated with a fresh uid
and timestamp), and the JWT signer. -/
structure CallbackEnv where
  redisAvail : Bool
  redis : RedisState
  exchange : String → String → Except ExchangeError TokenResponse
  http : String → Except String HttpResponse
  parseUser : String → Option GitHubUser
  accounts : List User
  pgFind : Int → Except ModelsError User
  fromGitHub : GitHubUser → User
  pgCreate : User → Except ModelsError User
  jwtGen : User → Except String String

structure CallbackOutcome where
  result : Except ActixError CallbackSuccess
  redisAfter : RedisState
  accountsAfter : List User

/-- The `callback` handler as a pure function of the query, the environment and
the current time. -/
def callback (now : Nat) (q : CallbackQuery) (env : CallbackEnv) : CallbackOutcome :=
  match redisGet env.redisAvail env.redis now q.state with
  | .error e =>
    { result := .error (errorBadRequest (redisErrorMsg e))
    , redisAfter := env.redis, accountsAfter := env.accounts }
  | .ok pkce_verifier =>
    match env.exchange q.code pkce_verifier with
    | .error (.serverResponse msg) =>
      { result := .error (errorBadRequest msg)
      , redisAfter := env.redis, accountsAfter := env.accounts }
    | .error (.otherFailure msg) =>
      { result := .error (errorInternalServerError msg)
      , redisAfter := env.redis, accountsAfter := env.accounts }
    | .ok token =>
      match (get_user_info_from_github env.http env.parseUser token).result with
      | .error e =>
        { result := .error (oauthErrorToActix e)
        , redisAfter := env.redis, accountsAfter := env.accounts }
      | .ok github_user =>
        match reconcile (env.pgFind github_user.id) (env.fromGitHub github_user)
            env.pgCreate env.accounts with
        | .error e =>
          { result := .error (modelsErrorToActix e)
          , redisAfter := env.redis, accountsAfter := env.accounts }
        | .ok (libre_user, accountsNow) =>
          match env.jwtGen libre_user with
          | .error m =>
            { result := .error (errorInternalServerError m)
            , redisAfter := env.redis, accountsAfter := accountsNow }
          | .ok jwt =>
            { result := .ok ⟨303, "/", ⟨libre_user, jwt⟩⟩
            , redisAfter := env.redis, accountsAfter := accountsNow }

/-- A request outcome counts as a client error when it failed with a 4xx
status. -/
def isClientError : Except ActixError CallbackSuccess → Bool
  | .error e => 400 ≤ e.status && e.status < 500
  | .ok _ => false

/-! ### Concrete test fixtures used by the closed theorems -/

/-- A concrete local account used as a fixture. -/
def sampleUser : User :=
  ⟨"uid-1", "Alice", "alice", "alice.png", "alice@example.org", 0, false, some 7, none⟩

/-- A concrete callback environment: the token exchange fails with a provider
error body, so runs through it stop right after the correlation lookup; the
storage starts empty. Only the store availability and contents vary. -/
def testEnv (avail : Bool) (st : RedisState) : CallbackEnv :=
  { redisAvail := avail
  , redis := st
  , exchange := fun _ _ => .error (.serverResponse "provider rejected the code")
  , http := fun _ => .error "connection reset"
  , parseUser := fun _ => none
  , accounts := []
  , pgFind := fun _ => .error .notFound
  , fromGitHub := fun g => { sampleUser with github_id := some g.id }
  , pgCreate := fun u => .ok u
  , jwtGen := fun _ => .ok "jwt-token" }

/-! ### Theorems -/

/-- C2: the `auth` handler does not fail when the correlation-store write
fails. With the store unavailable the write is a no-op, its error is discarded
by the `let _ =`, and the handler still returns the 302 redirect to the
provider carrying the CSRF state — contradicting the claim that a failed store
write aborts the redirect and is propagated to the caller. -/
theorem auth_redirect_despite_store_write_failure
    (authorizeUrl : String → String → String)
    (csrf_state pkce_verifier pkce_challenge : String) (st : RedisState) :
    auth authorizeUrl csrf_state pkce_verifier pkce_challenge false st
      = (⟨302, authorizeUrl csrf_state pkce_challenge, csrf_state⟩, st) := by
  simp [auth, redisSet]

/-- C8: the correlation entry written by `auth` carries no TTL (the handler
issues a plain SET), so it never expires: a lookup at every later time still
returns the verifier — contradicting the claim that every entry carries a TTL
after which it behaves as deleted. -/
theorem correlation_entry_written_without_ttl
    (authorizeUrl : String → String → String)
    (csrf_state pkce_verifier pkce_challenge : String) (st : RedisState) :
    redisFind (auth authorizeUrl csrf_state pkce_verifier pkce_challenge true st).2
        csrf_state = some (pkce_verifier, none)
    ∧ ∀ now : Nat,
        redisGet true (auth authorizeUrl csrf_state pkce_verifier pkce_challenge true st).2
          now csrf_state = .ok pkce_verifier := by
  constructor
  · simp [auth, redisSet, redisFind]
  · intro now
    simp [auth, redisSet, redisGet, redisLookup, redisFind]

/-- C5: a remote profile with no email field converts to a local account whose
email is the empty string; the conversion is total, so a missing email never
causes a failure. -/
theorem missing_email_yields_empty_email_account
    (freshUid : String) (now : Nat) (p : CasdoorUser) :
    (userFromCasdoor freshUid now { p with email := none }).email = "" := by
  simp [userFromCasdoor]

/-- C7: the account constructed on the sign-up path has exactly the fields the
spec describes — the given fresh internal id, display name preferring the
preferred username and otherwise the provider's display name, avatar from the
profile picture, email from the profile and empty when absent, creation
timestamp now, administrator flag false, and provider linkage equal to the
profile's sub. -/
theorem signup_account_fields_match_spec
    (freshUid : String) (now : Nat) (p : CasdoorUser) :
    userFromCasdoor freshUid now p = specSignUpAccount freshUid now p := by
  obtain ⟨address, aud, email, everified, groups, iss, name, phone, pic, pref, sub⟩ := p
  cases pref <;> cases email <;> rfl

/-- C1: the correlation lookup in `callback` is a plain GET, not a
retrieve-and-delete. With an entry ("state1" ↦ "verifier1") in the store, the
lookup succeeds, the callback leaves the store unchanged, and a second lookup
for the same state still succeeds — contradicting the claim that the entry is
deleted on first retrieval and that a second lookup returns not found. -/
theorem correlation_entry_survives_first_lookup :
    redisGet true [("state1", "verifier1", none)] 0 "state1" = .ok "verifier1"
    ∧ (callback 0 ⟨"state1", "code1"⟩
        (testEnv true [("state1", "verifier1", none)])).redisAfter
      = [("state1", "verifier1", none)]
    ∧ redisGet true
        (callback 0 ⟨"state1", "code1"⟩
          (testEnv true [("state1", "verifier1", none)])).redisAfter
        5 "state1" = .ok "verifier1" := by
  refine ⟨by decide, rfl, by decide⟩

/-- C3: `callback` maps every error of the correlation-store GET through
`ErrorBadRequest`, so an unavailable store (an infrastructure failure) is
surfaced as the same 400 client error as an absent state key; the two
conditions are conflated and no 5xx is produced — contradicting the claim. -/
theorem callback_conflates_store_failure_with_absent_state :
    (callback 0 ⟨"state1", "code1"⟩ (testEnv false [])).result
      = .error (errorBadRequest (redisErrorMsg .ioError))
    ∧ (callback 0 ⟨"state1", "code1"⟩ (testEnv true [])).result
      = .error (errorBadRequest (redisErrorMsg .typeError))
    ∧ isClientError (callback 0 ⟨"state1", "code1"⟩ (testEnv false [])).result
      = true := by
  refine ⟨by decide, by decide, by decide⟩

/-- C9: a callback whose state is not present in the correlation store (in
particular any state never issued by this process) fails with a 4xx client
error and leaves the account table unchanged, whether the store answered
(absent key) or was unavailable. -/
theorem unknown_state_client_error_accounts_unchanged
    (now : Nat) (q : CallbackQuery) (env : CallbackEnv)
    (habsent : redisLookup env.redis now q.state = none) :
    isClientError (callback now q env).result = true
    ∧ (callback now q env).accountsAfter = env.accounts := by
  cases havail : env.redisAvail with
  | false => simp [callback, redisGet, havail, isClientError, errorBadRequest]
  | true => simp [callback, redisGet, havail, habsent, isClientError, errorBadRequest]

/-- Concrete run of the unknown-state theorem: a store holding only another
state, queried with the state "forged". -/
theorem unknown_state_client_error_accounts_unchanged_witness :
    isClientError (callback 0 ⟨"forged", "code1"⟩
        (testEnv true [("state1", "verifier1", none)])).result = true
    ∧ (callback 0 ⟨"forged", "code1"⟩
        (testEnv true [("state1", "verifier1", none)])).accountsAfter
      = (testEnv true [("state1", "verifier1", none)]).accounts :=
  unknown_state_client_error_accounts_unchanged 0 ⟨"forged", "code1"⟩
    (testEnv true [("state1", "verifier1", none)]) (by decide)

/-- C6: in the reconciliation match, a lookup failure other than not-found is
propagated unchanged (an infrastructure condition under the spec taxonomy) and
no account is created; conversely, any successful outcome that enlarged the
account table came from the not-found branch. -/
theorem reconcile_propagates_non_notfound_failure
    (m : String) (newUser : User) (create : User → Except ModelsError User)
    (accounts : List User) :
    (reconcile (.error (.storage m)) newUser create accounts = .error (.storage m)
      ∧ classifyModelsError (.storage m) = .infrastructureError)
    ∧ ∀ (find_result : Except ModelsError User) (u : User) (accountsAfter : List User),
        reconcile find_result newUser create accounts = .ok (u, accountsAfter) →
        accountsAfter ≠ accounts → find_result = .error .notFound := by
  refine ⟨⟨rfl, rfl⟩, ?_⟩
  intro find_result u accountsAfter h hne
  cases find_result with
  | ok user =>
    simp only [reconcile] at h
    cases h
    exact absurd rfl hne
  | error e =>
    cases e with
    | notFound => rfl
    | storage m2 => simp [reconcile] at h

/-- Concrete run of the reconciliation theorem: a storage failure "io error" is
propagated and classified as infrastructure, and a creation that grew the table
is traced back to the not-found outcome. -/
theorem reconcile_propagates_non_notfound_failure_witness :
    (reconcile (.error (.storage "io error")) sampleUser (fun u => .ok u) []
        = .error (.storage "io error")
      ∧ classifyModelsError (.storage "io error") = .infrastructureError)
    ∧ (Except.error ModelsError.notFound : Except ModelsError User)
        = .error .notFound :=
  ⟨(reconcile_propagates_non_notfound_failure "io error" sampleUser
      (fun u => .ok u) []).1,
   (reconcile_propagates_non_notfound_failure "io error" sampleUser
      (fun u => .ok u) []).2
     (.error .notFound) sampleUser [sampleUser] rfl (by decide)⟩

/-- C4: a token-exchange result whose token type is not Bearer makes
`get_user_info_from_github` fail with the "Unsupported token type" error — a
client error under the spec taxonomy — and no user-info HTTP request is
issued. -/
theorem unsupported_token_type_fails_before_profile_fetch
    (http : String → Except String HttpResponse)
    (parseUser : String → Option GitHubUser) (token : TokenResponse)
    (h : token.token_type ≠ .bearer) :
    (get_user_info_from_github http parseUser token).result
        = .error (.other "Unsupported token type")
    ∧ (get_user_info_from_github http parseUser token).requests = []
    ∧ classifyOAuthError (.other "Unsupported token type") = .clientError := by
  cases htt : token.token_type with
  | bearer => exact absurd htt h
  | mac =>
    refine ⟨?_, ?_, by decide⟩ <;> simp [get_user_info_from_github, htt]
  | extensionType t =>
    refine ⟨?_, ?_, by decide⟩ <;> simp [get_user_info_from_github, htt]

/-- Concrete run of the unsupported-token-type theorem at a MAC token. -/
theorem unsupported_token_type_fails_before_profile_fetch_witness :
    (get_user_info_from_github (fun _ => .error "down") (fun _ => none)
        ⟨"tok", .mac, none⟩).result = .error (.other "Unsupported token type")
    ∧ (get_user_info_from_github (fun _ => .error "down") (fun _ => none)
        ⟨"tok", .mac, none⟩).requests = []
    ∧ classifyOAuthError (.other "Unsupported token type") = .clientError :=
  unsupported_token_type_fails_before_profile_fetch (fun _ => .error "down")
    (fun _ => none) ⟨"tok", .mac, none⟩ (by decide)

/-- C10: two token-exchange responses that differ only in their scopes field
give the same profile-retrieval result and issue the same HTTP requests: the
scopes are split on commas only for logging and never influence whether or how
the profile is fetched or parsed. -/
theorem scopes_do_not_influence_profile_fetch
    (http : String → Except String HttpResponse)
    (parseUser : String → Option GitHubUser) (token : TokenResponse)
    (s : Option (List String)) :
    (get_user_info_from_github http parseUser { token with scopes := s }).result
      = (get_user_info_from_github http parseUser token).result
    ∧ (get_user_info_from_github http parseUser { token with scopes := s }).requests
      = (get_user_info_from_github http parseUser token).requests := by
  obtain ⟨accessToken, tokenType, scopes0⟩ := token
  cases tokenType with
  | bearer =>
    simp only [get_user_info_from_github]
    cases http ("Bearer " ++ accessToken) with
    | error e => exact ⟨rfl, rfl⟩
    | ok r =>
      by_cases h200 : r.status = 200
      · cases hp : parseUser r.body <;> simp [h200, hp]
      · by_cases h401 : r.status = 401 <;> simp [h200, h401]
  | mac => exact ⟨rfl, rfl⟩
  | extensionType t => exact ⟨rfl, rfl⟩

end ModernLibre
